import Mathlib

/-!
# Verification of the `dod` DigitalOcean CLI against its specification

A shallow embedding of the droplet CLI (`src/dod.js`, two concatenated
variants, plus `src/unnamed/part_000`). JavaScript objects are modelled as
Lean structures carrying exactly the fields the code reads; `undefined` is
modelled by `Option` (or an explicit `Cell.undef` table-cell value);
`JSON.parse` of an unparseable/undefined body is modelled as a thrown
exception; the asynchronous request callbacks are modelled as pure
functions from the callback arguments `(error, response, body)` to the
result, or to the list of effects the handler performs, listed in
program-issue order.
-/

namespace Dod

/-! ## Data model

Resources as received from the API, with exactly the fields the code
reads. -/

structure Region where
  name : String
  slug : String
deriving DecidableEq, Repr

structure Image where
  distribution : String
deriving DecidableEq, Repr

structure NetworkV4 where
  ip_address : String
deriving DecidableEq, Repr

structure Droplet where
  id : Int
  name : String
  status : String
  created_at : String
  size_slug : String
  disk : Int
  networks_v4 : List NetworkV4
  image : Image
  region : Region
deriving DecidableEq, Repr

/-- The parsed body of `GET /droplets`. On a success payload the `id`
sentinel field is absent (`none`) and `droplets` is the collection; on an
error payload such as `{"id":"unauthorized",...}` the `droplets` field is
absent (JS: `data.droplets` is `undefined`). -/
structure ListPayload where
  id : Option String := none
  droplets : Option (List Droplet) := none
deriving DecidableEq, Repr

/-- The DigitalOcean API base url of the second variant
(`const baseUrl = 'https://api.digitalocean.com/v2'`, dod.js line 272). -/
def baseUrl : String := "https://api.digitalocean.com/v2"

/-- `'Error: account unauthorized, please provide a valid API token.'`
(dod.js lines 113, 177, 241). -/
def unauthorizedMsg : String :=
  "Error: account unauthorized, please provide a valid API token."

/-- The message of the `SyntaxError` that `JSON.parse(body)` throws when
the body is `undefined` (as on a transport error) or not valid JSON. -/
def jsonParseErrorMsg : String := "SyntaxError: Unexpected token u in JSON at position 0"

/-! ## Resource resolver (dod.js lines 117-124 and 451-458)

```js
const droplets = data.droplets;
let droplet = {};
droplets.forEach(function (d) {
  if ((d.name === arg) || (d.id === Number(arg))) {
    droplet = d;
  }
});
```
The empty initial object (whose `.id` is `undefined`) is modelled by
`none`; each matching element overwrites the accumulator, and the scan
never stops early. -/

/-- Models `Number(arg)` for the lookup key: a decimal integer string
yields that integer, anything else is `NaN`, modelled as `none` (the JS
comparison `d.id === NaN` is false for every id, matching `none`).
`Number` also accepts floats, hex and whitespace, but droplet ids are
decimal integers, so the match semantics agree on all relevant keys. -/
def jsNumber (s : String) : Option Int := s.toInt?

/-- The loop condition `(d.name === arg) || (d.id === Number(arg))`. -/
def matchesKey (arg : String) (d : Droplet) : Bool :=
  d.name == arg || jsNumber arg == some d.id

/-- The resolver scan: `forEach` with overwrite-on-match, starting from
the empty object. -/
def resolveDroplet (arg : String) (droplets : List Droplet) : Option Droplet :=
  droplets.foldl (fun acc d => if matchesKey arg d then some d else acc) none

/-! ## Not-found reporting (dod.js lines 134-137 and 402-405) -/

/-- What a droplet lookup prints: either a not-found error message or a
dump of the droplet object (`console.log(droplet)`). -/
inductive DropletView
  | notFound (msg : String)
  | info (d : Droplet)
deriving DecidableEq, Repr

/-- `printDropletInfo` (second variant, dod.js lines 402-405): the check
`droplet.id === undefined` on the `{}` accumulator is the `none` case.
The function returns normally in both cases — there is no `process.exit`
on this path. -/
def printDropletInfo (arg : String) (droplet : Option Droplet) : DropletView :=
  match droplet with
  | none => .notFound ("Error: the Droplet \"" ++ arg ++ "\" cannot be found")
  | some d => .info d

/-- The first variant's flagless branch (dod.js lines 134-137):
`droplet.id === undefined ? console.log('Server not found') : console.log(droplet)`. -/
def lookupResultV1 (droplet : Option Droplet) : DropletView :=
  match droplet with
  | none => .notFound "Server not found"
  | some d => .info d

/-! ## Presentation (dod.js second variant, lines 279-399 and 526-548)

Each `printX` function builds a borderless `cli-table` with a fixed
header and one pushed row per iterated element.  A table is modelled as
its header together with the list of pushed rows; a cell is the JS value
placed in the row, with `chalk` colouring of status cells recorded as the
presentation class it denotes (green = success, red = failure, yellow =
neutral/in-progress) and the fixed long `moment` format
`'MMMM Do YYYY, h:mm:ss a'` recorded as a tag on the formatted
timestamp. -/

inductive StatusClass
  | success
  | failure
  | neutral
deriving DecidableEq, Repr

inductive Cell
  | undef
  | str (s : String)
  | num (n : Int)
  | boolean (b : Bool)
  | strList (rs : List String)
  | fmtDate (iso : String)
  | colored (cls : StatusClass) (s : String)
deriving DecidableEq, Repr

structure RenderedTable where
  head : List String
  rows : List (List Cell)
deriving DecidableEq, Repr

/-- The status cell of every droplet view (`all` action line 200, `list`
action line 539, `printNeighbors` line 391 — the identical expression):
`droplet.status === 'active' ? chalk.green(droplet.status) : chalk.red(droplet.status)`. -/
def dropletStatusClass (status : String) : StatusClass :=
  if status == "active" then .success else .failure

/-- The status cell of the actions view (dod.js lines 362-364):
`action.status === 'in-progress' ? chalk.yellow(...) : action.status === 'errored' ? chalk.red(...) : chalk.green(...)`. -/
def actionStatusClass (status : String) : StatusClass :=
  if status == "in-progress" then .neutral
  else if status == "errored" then .failure
  else .success

structure Kernel where
  id : Int
  name : String
  version : String
deriving DecidableEq, Repr

structure KernelsPayload where
  kernels : List Kernel
deriving DecidableEq, Repr

/-- A snapshot element. The provider's `size_gigabytes` is fractional;
it is carried opaquely into a table cell, so it is modelled as an
integer — no claim depends on its arithmetic. -/
structure Snapshot where
  id : Int
  created_at : String
  name : String
  distribution : String
  public : Bool
  regions : List String
  size_gigabytes : Int
  min_disk_size : Int
deriving DecidableEq, Repr

structure SnapshotsPayload where
  snapshots : List Snapshot
deriving DecidableEq, Repr

structure Backup where
  id : Int
  created_at : String
  name : String
  distribution : String
  public : Bool
  regions : List String
  size : Int
  min_disk_size : Int
deriving DecidableEq, Repr

/-- The parsed body of `GET /droplets/<id>/backups`:
`{backups: [...], links: ..., meta: ...}`.  The collection object itself
has no `id`, `created_at`, `name`, ... fields, so reading them in JS
yields `undefined`; they are modelled as `Cell`-valued fields defaulting
to `Cell.undef` so that the transcription of `printBackups` (which reads
`backups.id` etc. off this object) stays literal. -/
structure BackupsPayload where
  backups : List Backup
  id : Cell := .undef
  created_at : Cell := .undef
  name : Cell := .undef
  distribution : Cell := .undef
  public : Cell := .undef
  regions : Cell := .undef
  size : Cell := .undef
  min_disk_size : Cell := .undef
deriving DecidableEq, Repr

structure ActionRec where
  id : Int
  type : String
  status : String
  started_at : String
  completed_at : String
  resource_id : Int
  resource_type : String
  region_slug : String
deriving DecidableEq, Repr

structure ActionsPayload where
  actions : List ActionRec
deriving DecidableEq, Repr

structure NeighborsPayload where
  droplets : List Droplet
deriving DecidableEq, Repr

/-- `printKernels` (dod.js lines 280-296). -/
def printKernelsTable (kernels : KernelsPayload) : RenderedTable :=
  { head := ["ID", "NAME", "VERSION"],
    rows := kernels.kernels.map (fun kernel =>
      [.num kernel.id, .str kernel.name, .str kernel.version]) }

/-- `printSnapshots` (dod.js lines 299-320). -/
def printSnapshotsTable (snapshots : SnapshotsPayload) : RenderedTable :=
  { head := ["ID", "CREATED", "NAME", "DISTRIBUTION", "PUBLIC", "REGIONS",
             "SIZE", "MIN DISK SIZE"],
    rows := snapshots.snapshots.map (fun snapshot =>
      [.num snapshot.id, .str snapshot.created_at, .str snapshot.name,
       .str snapshot.distribution, .boolean snapshot.public,
       .strList snapshot.regions, .num snapshot.size_gigabytes,
       .num snapshot.min_disk_size]) }

/-- `printBackups` (dod.js lines 323-346): every cell of every pushed row
reads a field of the collection object `backups`, not of the iterated
element `backup`:
```js
backups.backups.forEach(function (backup) {
  backupsList.push([backups.id, backups.created_at, backups.name,
    backups.distribution, backups.public, backups.regions, backups.size,
    backups.min_disk_size]);
});
``` -/
def printBackupsTable (backups : BackupsPayload) : RenderedTable :=
  { head := ["ID", "CREATED", "NAME", "DISTRIBUTION", "PUBLIC", "REGIONS",
             "SIZE", "MIN DISK SIZE"],
    rows := backups.backups.map (fun _backup =>
      [backups.id, backups.created_at, backups.name, backups.distribution,
       backups.public, backups.regions, backups.size, backups.min_disk_size]) }

/-- `printActions` (dod.js lines 349-374). -/
def printActionsTable (actions : ActionsPayload) : RenderedTable :=
  { head := ["ID", "TYPE", "STATUS", "STARTED", "COMPLETED", "RESOURCE ID",
             "RESOURCE TYPE", "REGION"],
    rows := actions.actions.map (fun action =>
      [.num action.id, .str action.type,
       .colored (actionStatusClass action.status) action.status,
       .fmtDate action.started_at, .fmtDate action.completed_at,
       .num action.resource_id, .str action.resource_type,
       .str action.region_slug]) }

/-- `networks.v4[0].ip_address`.  On an empty `v4` array the JS code
would throw; modelled as `.undef`.  No claim exercises that corner. -/
def firstIpCell (v4 : List NetworkV4) : Cell :=
  match v4 with
  | [] => .undef
  | n :: _ => .str n.ip_address

/-- The row pushed for a droplet — the identical expression in the `all`
action (lines 194-206), the `list` action (lines 533-545) and
`printNeighbors` (lines 385-397). -/
def dropletRow (droplet : Droplet) : List Cell :=
  [.num droplet.id,
   .fmtDate droplet.created_at,
   .str droplet.name,
   firstIpCell droplet.networks_v4,
   .colored (dropletStatusClass droplet.status) droplet.status,
   .str droplet.image.distribution,
   .str droplet.size_slug,
   .str (toString droplet.disk ++ "gb"),
   .str (droplet.region.name ++ " (" ++ droplet.region.slug ++ ")")]

/-- The `list` action's table (dod.js lines 526-548). -/
def dropletsListTable (droplets : List Droplet) : RenderedTable :=
  { head := ["ID", "CREATED", "NAME", "PUBLIC IP (IPv4)", "STATUS", "IMAGE",
             "MEMORY", "DISK", "REGION"],
    rows := droplets.map dropletRow }

/-- `printNeighbors` (dod.js lines 377-399). -/
def printNeighborsTable (neighbors : NeighborsPayload) : RenderedTable :=
  { head := ["ID", "CREATED", "NAME", "PUBLIC IP (v4)", "STATUS", "IMAGE",
             "MEMORY", "DISK", "REGION"],
    rows := neighbors.droplets.map dropletRow }

/-! ## Response handlers -/

/-- The `response` argument of a `request` callback; the handlers never
read it (in particular they never read `statusCode`). -/
structure HttpResponse where
  statusCode : Nat
deriving DecidableEq, Repr

/-- What a list/all response handler does with the callback arguments. -/
inductive HandlerResult
  | thrown (msg : String)
  | errorLog (msg : String)
  | rendered (countLine : String) (t : RenderedTable)
deriving DecidableEq, Repr

/-- The `list` action's response handler (dod.js lines 512-551); the
`all` action (lines 167-207 and the part_000 variant) is the same shape
without the count line.
```js
let data = JSON.parse(body);
let droplets = data.droplets;
if (error) { console.log('Error: ' + error); return; }
else if (data.id == 'unauthorized') { console.log(errors[0]); return; }
...build table, forEach, print...
```
`body = none` models an undefined or unparseable body: on a transport
error the request library passes `body = undefined`, and
`JSON.parse(undefined)` throws *before* the `if (error)` check is
reached.  `data.droplets = none` models a payload without a `droplets`
array, on which `forEach` would throw.  The `response` argument is
ignored, so the result never depends on the HTTP status code. -/
def listActionHandler (error : Option String) (_response : HttpResponse)
    (body : Option ListPayload) : HandlerResult :=
  match body with
  | none => .thrown jsonParseErrorMsg
  | some data =>
    match error with
    | some e => .errorLog ("Error: " ++ e)
    | none =>
      if data.id == some "unauthorized" then .errorLog unauthorizedMsg
      else
        match data.droplets with
        | none => .thrown "TypeError: cannot read property forEach of undefined"
        | some droplets =>
          .rendered ("Droplets: " ++ toString droplets.length)
            (dropletsListTable droplets)

/-! ## The droplet lookup action, second variant (dod.js lines 430-505) -/

/-- The detail flags of the positional `<droplet_name|droplet_id>`
argument. -/
structure Flags where
  kernels : Bool := false
  snapshots : Bool := false
  backups : Bool := false
  actions : Bool := false
  neighbors : Bool := false
deriving DecidableEq, Repr

/-- The flag-priority chain (dod.js lines 464-471): the first recognized
flag wins; with no flag, `option` stays `undefined`. -/
def chosenOption (flags : Flags) : Option String :=
  if flags.kernels then some "kernels"
  else if flags.snapshots then some "snapshots"
  else if flags.backups then some "backups"
  else if flags.actions then some "actions"
  else if flags.neighbors then some "neighbors"
  else none

/-- The parsed body of the lookup action's second GET.  The real
sub-resource payloads are `{kernels|snapshots|backups|actions|droplets: [...]}`;
`other n` stands for any other parsed JSON object whose first field has
`.length` equal to `n` (for instance the provider's 404 body for the
`/undefined` path, `{"id":"not_found",...}`, whose first field is the
string `not_found` of length 9). -/
inductive SubPayload
  | kernelsPayload (p : KernelsPayload)
  | snapshotsPayload (p : SnapshotsPayload)
  | backupsPayload (p : BackupsPayload)
  | actionsPayload (p : ActionsPayload)
  | neighborsPayload (p : NeighborsPayload)
  | other (firstFieldLen : Nat)
deriving DecidableEq, Repr

/-- `output[Object.keys(output)[0]].length` (dod.js line 482): the length
of the first field's value. -/
def SubPayload.totalResults : SubPayload → Nat
  | .kernelsPayload p => p.kernels.length
  | .snapshotsPayload p => p.snapshots.length
  | .backupsPayload p => p.backups.length
  | .actionsPayload p => p.actions.length
  | .neighborsPayload p => p.droplets.length
  | .other n => n

def SubPayload.kernelsField : SubPayload → Option KernelsPayload
  | .kernelsPayload p => some p
  | _ => none

def SubPayload.snapshotsField : SubPayload → Option SnapshotsPayload
  | .snapshotsPayload p => some p
  | _ => none

def SubPayload.backupsField : SubPayload → Option BackupsPayload
  | .backupsPayload p => some p
  | _ => none

def SubPayload.actionsField : SubPayload → Option ActionsPayload
  | .actionsPayload p => some p
  | _ => none

def SubPayload.neighborsField : SubPayload → Option NeighborsPayload
  | .neighborsPayload p => some p
  | _ => none

/-- An effect performed by a command action, in program-issue order.
`.thrownEx` marks an uncaught exception that ends the invocation. -/
inductive Effect
  | httpGet (url : String)
  | fileWrite (path : String) (content : String)
  | logMsg (msg : String)
  | printView (v : DropletView)
  | printTable (t : RenderedTable)
  | thrownEx (msg : String)
deriving DecidableEq, Repr

/-- JS string coercion of a possibly-undefined string in `+`
concatenation: `undefined` renders as the text `undefined`. -/
def jsCoerceStr (x : Option String) : String :=
  match x with
  | some s => s
  | none => "undefined"

/-- JS string coercion of a possibly-undefined number in `+`
concatenation. -/
def jsCoerceNum (x : Option Int) : String :=
  match x with
  | some n => toString n
  | none => "undefined"

/-- The `switch (option)` of the second callback (dod.js lines 489-502):
each case hands the whole parsed `output` to the matching print function,
which reads its collection field (`output.kernels`, ...); if `output` has
a different shape that field is `undefined` and the `forEach` inside the
print function throws.  The `default` branch does nothing — in particular
`option = undefined` falls through silently. -/
def renderSwitch (option : Option String) (output : SubPayload) : List Effect :=
  match option with
  | some "kernels" =>
    match output.kernelsField with
    | some p => [.printTable (printKernelsTable p)]
    | none => [.thrownEx "TypeError: cannot read property forEach of undefined"]
  | some "snapshots" =>
    match output.snapshotsField with
    | some p => [.printTable (printSnapshotsTable p)]
    | none => [.thrownEx "TypeError: cannot read property forEach of undefined"]
  | some "backups" =>
    match output.backupsField with
    | some p => [.printTable (printBackupsTable p)]
    | none => [.thrownEx "TypeError: cannot read property forEach of undefined"]
  | some "actions" =>
    match output.actionsField with
    | some p => [.printTable (printActionsTable p)]
    | none => [.thrownEx "TypeError: cannot read property forEach of undefined"]
  | some "neighbors" =>
    match output.neighborsField with
    | some p => [.printTable (printNeighborsTable p)]
    | none => [.thrownEx "TypeError: cannot read property forEach of undefined"]
  | _ => []

/-- The second GET's callback (dod.js lines 473-503).  Its own `error`
argument is never checked by the code, so it is not a parameter here.
The not-found check on `dropletName` precedes `JSON.parse(body)`; the
count line drops the `chalk.cyan` colouring of the two captions. -/
def lookupSecondCallback (arg : String) (dropletName : Option String)
    (option : Option String) (body2 : Option SubPayload) : List Effect :=
  match dropletName with
  | none => [.logMsg ("Error: the Droplet \"" ++ arg ++ "\" cannot be found")]
  | some nm =>
    match body2 with
    | none => [.thrownEx jsonParseErrorMsg]
    | some output =>
      .logMsg ("Droplet: " ++ nm ++ ", Total results: " ++
        toString output.totalResults) ::
      (if output.totalResults == 0 then [] else renderSwitch option output)

/-- The second-variant droplet lookup action (dod.js lines 437-505), as
the list of effects performed, given the first callback's `error1` and
parsed `body1` and the second callback's parsed `body2`.  Note the
flagless `else` branch (lines 469-471) calls `printDropletInfo` and does
*not* return, so execution always falls through to the second
`request.get`. -/
def lookupAction (arg : String) (flags : Flags) (error1 : Option String)
    (body1 : Option ListPayload) (body2 : Option SubPayload) : List Effect :=
  Effect.httpGet (baseUrl ++ "/droplets") ::
  (match body1 with
   | none => [.thrownEx jsonParseErrorMsg]
   | some data =>
     match error1 with
     | some e => [.logMsg ("Error: " ++ e)]
     | none =>
       if data.id == some "unauthorized" then [.logMsg unauthorizedMsg]
       else
         match data.droplets with
         | none => [.thrownEx "TypeError: cannot read property forEach of undefined"]
         | some droplets =>
           let droplet := resolveDroplet arg droplets
           let dropletId := droplet.map Droplet.id
           let dropletName := droplet.map Droplet.name
           let option := chosenOption flags
           (match option with
            | none => [Effect.printView (printDropletInfo arg droplet)]
            | some _ => []) ++
           Effect.httpGet (baseUrl ++ "/droplets/" ++ jsCoerceNum dropletId ++
             "/" ++ jsCoerceStr option) ::
           lookupSecondCallback arg dropletName option body2)

/-! ## The authorize action (dod.js lines 412-428 and 76-93;
src/unnamed/part_000 lines 49-69) -/

/-- The outcome of the validation GET issued by the authorize action:
either no transport error, or a transport error delivered to the
`.on('error', ...)` callback.  Nothing in the action inspects the
response itself — there is no success handler at all. -/
inductive RequestOutcome
  | ok
  | transportError (err : String)
deriving DecidableEq, Repr

/-- The authorize command action:
```js
request.get(baseUrl + '/droplets', auth).on('error', function (err) {
  console.log('Error: ' + err); return;
});
fs.writeFile(CONFIG_FILE, token, function(err) {
  if (err) { console.log('Error:' + err); }
  else { console.log('A new token has been added.'); }
});
```
`home` is the user's home directory (`CONFIG_FILE` is
`home + '/.dodrc.yml'`); `writeErr` is the error argument of the
`fs.writeFile` callback.  The callbacks are asynchronous; the trace lists
the effects in program-issue order, and the theorems use only
membership. -/
def authorizeAction (home tok : String) (reqOutcome : RequestOutcome)
    (writeErr : Option String) : List Effect :=
  Effect.httpGet (baseUrl ++ "/droplets") ::
  (match reqOutcome with
   | .transportError e => [Effect.logMsg ("Error: " ++ e)]
   | .ok => []) ++
  Effect.fileWrite (home ++ "/.dodrc.yml") tok ::
  (match writeErr with
   | some e => [Effect.logMsg ("Error:" ++ e)]
   | none => [Effect.logMsg "A new token has been added."])

/-! ## Create/delete outcome classification

Modelled from the spec: the `create <name>` and `delete <id>` command
implementations are not under src/ (the spec's §4.4 and §6 document the
commands and their status contract).  Per the spec, success for creation
is signaled exclusively by HTTP status 202 with a fixed success message,
success for deletion exclusively by status 204, and any other status is
reported with the fixed generic provider-side failure message, regardless
of response body content. -/

def createSuccessMsg : String := "create succeeded"

def deleteSuccessMsg : String := "delete succeeded"

def providerFailureMsg : String := "provider-side operation failure"

/-- Modelled from the spec: the create request's user-facing outcome,
from the response status code and raw body (ignored). -/
def createResultMsg (statusCode : Nat) (_body : Option String) : String :=
  if statusCode == 202 then createSuccessMsg else providerFailureMsg

/-- Modelled from the spec: the delete request's user-facing outcome,
from the response status code and raw body (ignored). -/
def deleteResultMsg (statusCode : Nat) (_body : Option String) : String :=
  if statusCode == 204 then deleteSuccessMsg else providerFailureMsg

/-! ## Sample data for witnesses -/

def sampleDroplet (i : Int) (nm st : String) : Droplet :=
  { id := i, name := nm, status := st,
    created_at := "2016-06-03T16:00:00Z", size_slug := "512mb", disk := 20,
    networks_v4 := [{ ip_address := "198.51.100.10" }],
    image := { distribution := "Ubuntu" },
    region := { name := "New York 1", slug := "nyc1" } }

/-! # Theorems

## Resolver lemmas -/

theorem foldr_overwrite_eq_find (p : Droplet → Bool) (l : List Droplet) :
    l.foldr (fun d acc => if p d then some d else acc) none = l.find? p := by
  induction l with
  | nil => rfl
  | cons x xs ih =>
    simp only [List.foldr_cons, ih, List.find?_cons]
    cases h : p x <;> simp [h]

theorem resolveDroplet_eq_find_reverse (arg : String) (l : List Droplet) :
    resolveDroplet arg l = l.reverse.find? (matchesKey arg) := by
  rw [← foldr_overwrite_eq_find (matchesKey arg) l.reverse, List.foldr_reverse]
  rfl

theorem find_eq_head_filter (p : Droplet → Bool) (l : List Droplet) :
    l.find? p = (l.filter p).head? := by
  induction l with
  | nil => rfl
  | cons x xs ih =>
    cases h : p x
    · rw [List.find?_cons_of_neg _ (by simp [h]), List.filter_cons_of_neg (by simp [h]), ih]
    · rw [List.find?_cons_of_pos _ h, List.filter_cons_of_pos h, List.head?_cons]

/-- The resolver scan keeps the **last** matching element: it equals the
last element of the filtered collection. -/
theorem resolveDroplet_eq_getLast_filter (arg : String) (l : List Droplet) :
    resolveDroplet arg l = (l.filter (matchesKey arg)).getLast? := by
  rw [resolveDroplet_eq_find_reverse, find_eq_head_filter, List.filter_reverse,
    List.head?_reverse]

theorem append_slash_undefined (a : String) :
    a ++ "/" ++ "undefined" = a ++ "/undefined" := by
  rw [String.append_assoc]
  rfl

/-! ## Claim theorems -/

/-- **C1.** Resource resolution scans the full collection without
short-circuiting, overwriting the running match on every item satisfying
`name == key` or `id == Number(key)`; for every collection containing two
or more resources whose name (or id) equals the lookup key, resolution
returns the last such resource in iteration order. -/
theorem c1_resolver_returns_last_match (arg : String) (l : List Droplet)
    (h : 2 ≤ (l.filter (matchesKey arg)).length) :
    resolveDroplet arg l = (l.filter (matchesKey arg)).getLast? ∧
    ∃ d, resolveDroplet arg l = some d ∧ d ∈ l ∧ matchesKey arg d = true := by
  refine ⟨resolveDroplet_eq_getLast_filter arg l, ?_⟩
  have hne : l.filter (matchesKey arg) ≠ [] := by
    intro hnil
    rw [hnil] at h
    simp at h
  cases hgl : (l.filter (matchesKey arg)).getLast? with
  | none => exact absurd (List.getLast?_eq_none_iff.mp hgl) hne
  | some d =>
    have hd : d ∈ l.filter (matchesKey arg) := List.mem_of_getLast?_eq_some hgl
    have hdl := List.mem_filter.mp hd
    exact ⟨d, by rw [resolveDroplet_eq_getLast_filter arg l, hgl], hdl.1, hdl.2⟩

/-- Witness for C1: two droplets named `web`; resolution returns the
second (id 101), the last in iteration order. -/
theorem c1_resolver_returns_last_match_witness :
    2 ≤ (List.filter (matchesKey "web")
      [sampleDroplet 100 "web" "active", sampleDroplet 101 "web" "off"]).length ∧
    (resolveDroplet "web"
        [sampleDroplet 100 "web" "active", sampleDroplet 101 "web" "off"] =
      (List.filter (matchesKey "web")
        [sampleDroplet 100 "web" "active", sampleDroplet 101 "web" "off"]).getLast? ∧
    ∃ d, resolveDroplet "web"
        [sampleDroplet 100 "web" "active", sampleDroplet 101 "web" "off"] = some d ∧
      d ∈ [sampleDroplet 100 "web" "active", sampleDroplet 101 "web" "off"] ∧
      matchesKey "web" d = true) :=
  ⟨by decide,
   c1_resolver_returns_last_match "web"
     [sampleDroplet 100 "web" "active", sampleDroplet 101 "web" "off"] (by decide)⟩

/-- **C2.** For every collection (including the empty one) and every key
matching no resource's name and no resource's id, resolution signals
not-found; both variants report it as a distinct user-facing message
(`Server not found`, respectively `Error: the Droplet "<arg>" cannot be
found`), and the flagless lookup trace contains the not-found view and no
thrown exception — it is not a fatal/process-exit condition. -/
theorem c2_unmatched_key_reports_not_found (arg : String) (l : List Droplet)
    (h : ∀ d ∈ l, matchesKey arg d = false) :
    resolveDroplet arg l = none ∧
    printDropletInfo arg (resolveDroplet arg l) =
      DropletView.notFound ("Error: the Droplet \"" ++ arg ++ "\" cannot be found") ∧
    lookupResultV1 (resolveDroplet arg l) = DropletView.notFound "Server not found" ∧
    ∀ b2 : Option SubPayload,
      Effect.printView (DropletView.notFound
          ("Error: the Droplet \"" ++ arg ++ "\" cannot be found")) ∈
        lookupAction arg {} none (some { droplets := some l }) b2 ∧
      ∀ m : String, Effect.thrownEx m ∉
        lookupAction arg {} none (some { droplets := some l }) b2 := by
  have hres : resolveDroplet arg l = none := by
    rw [resolveDroplet_eq_getLast_filter]
    have hfil : l.filter (matchesKey arg) = [] :=
      List.filter_eq_nil_iff.mpr (fun a ha => by simp [h a ha])
    rw [hfil]
    rfl
  have htrace : ∀ b2 : Option SubPayload,
      lookupAction arg {} none (some { droplets := some l }) b2 =
        [Effect.httpGet (baseUrl ++ "/droplets"),
         Effect.printView (DropletView.notFound
           ("Error: the Droplet \"" ++ arg ++ "\" cannot be found")),
         Effect.httpGet (baseUrl ++ "/droplets/undefined/undefined"),
         Effect.logMsg ("Error: the Droplet \"" ++ arg ++ "\" cannot be found")] := by
    intro b2
    simp [lookupAction, chosenOption, hres, lookupSecondCallback,
      printDropletInfo, jsCoerceNum, jsCoerceStr]
    rfl
  refine ⟨hres, by rw [hres]; rfl, by rw [hres]; rfl, ?_⟩
  intro b2
  refine ⟨by rw [htrace b2]; simp, ?_⟩
  intro m hm
  rw [htrace b2] at hm
  simp at hm

/-- Witness for C2: the empty collection and an unmatched key. -/
theorem c2_unmatched_key_reports_not_found_witness :
    resolveDroplet "ghost" [] = none ∧
    printDropletInfo "ghost" (resolveDroplet "ghost" []) =
      DropletView.notFound ("Error: the Droplet \"" ++ "ghost" ++ "\" cannot be found") ∧
    lookupResultV1 (resolveDroplet "ghost" []) = DropletView.notFound "Server not found" ∧
    ∀ b2 : Option SubPayload,
      Effect.printView (DropletView.notFound
          ("Error: the Droplet \"" ++ "ghost" ++ "\" cannot be found")) ∈
        lookupAction "ghost" {} none (some { droplets := some [] }) b2 ∧
      ∀ m : String, Effect.thrownEx m ∉
        lookupAction "ghost" {} none (some { droplets := some [] }) b2 :=
  c2_unmatched_key_reports_not_found "ghost" [] (by simp)

/-- **C3.** In every droplet view a status of exactly `active` maps to
the success class and any other status to the failure class (two-way
split); in the actions view `errored` maps to the failure class,
`in-progress` to the neutral class and every other value (including
`active`) to the success class (three-way split); these are exactly the
classes placed in the rendered status cells. -/
theorem c3_status_presentation_classes (s : String) :
    (dropletStatusClass s = .success ↔ s = "active") ∧
    (s ≠ "active" → dropletStatusClass s = .failure) ∧
    actionStatusClass "errored" = .failure ∧
    actionStatusClass "in-progress" = .neutral ∧
    (s ≠ "errored" → s ≠ "in-progress" → actionStatusClass s = .success) ∧
    (∀ d : Droplet, (dropletRow d)[4]? =
      some (Cell.colored (dropletStatusClass d.status) d.status)) ∧
    (∀ a : ActionRec, (printActionsTable { actions := [a] }).rows =
      [[Cell.num a.id, Cell.str a.type,
        Cell.colored (actionStatusClass a.status) a.status,
        Cell.fmtDate a.started_at, Cell.fmtDate a.completed_at,
        Cell.num a.resource_id, Cell.str a.resource_type,
        Cell.str a.region_slug]]) := by
  refine ⟨?_, ?_, by decide, by decide, ?_, fun d => rfl, fun a => rfl⟩
  · by_cases hs : s = "active" <;> simp [dropletStatusClass, hs]
  · intro hs
    simp [dropletStatusClass, hs]
  · intro h1 h2
    simp [actionStatusClass, h1, h2]

/-- Witness for C3 at the statuses `off` (droplet views) and `completed`
(actions view). -/
theorem c3_status_presentation_classes_witness :
    dropletStatusClass "off" = .failure ∧ actionStatusClass "completed" = .success :=
  ⟨(c3_status_presentation_classes "off").2.1 (by decide),
   (c3_status_presentation_classes "completed").2.2.2.2.1 (by decide) (by decide)⟩

/-- **C4.** Rendering an empty resource collection produces, for every
view, that view's fixed header with zero data rows, and is not an error;
additionally, in the lookup flow an empty sub-resource collection takes
the `totalResults === 0` early return, printing only the count line — no
error either. -/
theorem c4_empty_collection_renders_header_only :
    (∀ p : KernelsPayload, p.kernels = [] →
      printKernelsTable p = { head := ["ID", "NAME", "VERSION"], rows := [] }) ∧
    (∀ p : SnapshotsPayload, p.snapshots = [] →
      printSnapshotsTable p = { head := ["ID", "CREATED", "NAME", "DISTRIBUTION",
        "PUBLIC", "REGIONS", "SIZE", "MIN DISK SIZE"], rows := [] }) ∧
    (∀ p : BackupsPayload, p.backups = [] →
      (printBackupsTable p).head = ["ID", "CREATED", "NAME", "DISTRIBUTION",
        "PUBLIC", "REGIONS", "SIZE", "MIN DISK SIZE"] ∧
      (printBackupsTable p).rows = []) ∧
    (∀ p : ActionsPayload, p.actions = [] →
      printActionsTable p = { head := ["ID", "TYPE", "STATUS", "STARTED",
        "COMPLETED", "RESOURCE ID", "RESOURCE TYPE", "REGION"], rows := [] }) ∧
    (∀ p : NeighborsPayload, p.droplets = [] →
      printNeighborsTable p = { head := ["ID", "CREATED", "NAME", "PUBLIC IP (v4)",
        "STATUS", "IMAGE", "MEMORY", "DISK", "REGION"], rows := [] }) ∧
    dropletsListTable [] = { head := ["ID", "CREATED", "NAME", "PUBLIC IP (IPv4)",
      "STATUS", "IMAGE", "MEMORY", "DISK", "REGION"], rows := [] } ∧
    (∀ (arg nm : String) (opt : Option String) (sp : SubPayload),
      sp.totalResults = 0 →
      lookupSecondCallback arg (some nm) opt (some sp) =
        [Effect.logMsg ("Droplet: " ++ nm ++ ", Total results: " ++ toString (0 : Nat))]) := by
  refine ⟨?_, ?_, ?_, ?_, ?_, rfl, ?_⟩
  · intro p hp
    simp [printKernelsTable, hp]
  · intro p hp
    simp [printSnapshotsTable, hp]
  · intro p hp
    exact ⟨rfl, by simp [printBackupsTable, hp]⟩
  · intro p hp
    simp [printActionsTable, hp]
  · intro p hp
    simp [printNeighborsTable, hp]
  · intro arg nm opt sp hsp
    simp [lookupSecondCallback, hsp]

/-- Witness for C4 at concrete empty payloads. -/
theorem c4_empty_collection_renders_header_only_witness :
    printKernelsTable { kernels := [] } =
      { head := ["ID", "NAME", "VERSION"], rows := [] } ∧
    (printBackupsTable { backups := [] }).rows = [] ∧
    lookupSecondCallback "web" (some "web") none (some (.other 0)) =
      [Effect.logMsg ("Droplet: " ++ "web" ++ ", Total results: " ++ toString (0 : Nat))] :=
  ⟨c4_empty_collection_renders_header_only.1 { kernels := [] } rfl,
   (c4_empty_collection_renders_header_only.2.2.1 { backups := [] } rfl).2,
   c4_empty_collection_renders_header_only.2.2.2.2.2.2 "web" "web" none (.other 0) rfl⟩

/-- **C5.** Authorization failure is detected solely by inspecting the
parsed body for an `id` field equal to the sentinel `unauthorized` — the
handlers never read the response (so never the HTTP status); when the
sentinel is present the client reports the fixed unauthorized message and
does nothing further (no retry, no rendering, no second request). -/
theorem c5_unauthorized_sentinel_detection
    (e : Option String) (r r' : HttpResponse) (b : Option ListPayload)
    (data : ListPayload) (hid : data.id = some "unauthorized")
    (arg : String) (flags : Flags) (b2 : Option SubPayload) :
    listActionHandler e r b = listActionHandler e r' b ∧
    listActionHandler none r (some data) = .errorLog unauthorizedMsg ∧
    lookupAction arg flags none (some data) b2 =
      [Effect.httpGet (baseUrl ++ "/droplets"), Effect.logMsg unauthorizedMsg] := by
  refine ⟨rfl, ?_, ?_⟩
  · simp [listActionHandler, hid]
  · simp [lookupAction, hid]

/-- Witness for C5 at the concrete sentinel payload; the two responses
differ in status code (200 vs 401) without changing the result. -/
theorem c5_unauthorized_sentinel_detection_witness :
    listActionHandler none { statusCode := 200 } (some { id := some "unauthorized" }) =
      listActionHandler none { statusCode := 401 } (some { id := some "unauthorized" }) ∧
    listActionHandler none { statusCode := 200 } (some { id := some "unauthorized" }) =
      .errorLog unauthorizedMsg ∧
    lookupAction "web" {} none (some { id := some "unauthorized" }) none =
      [Effect.httpGet (baseUrl ++ "/droplets"), Effect.logMsg unauthorizedMsg] :=
  c5_unauthorized_sentinel_detection none { statusCode := 200 } { statusCode := 401 }
    (some { id := some "unauthorized" }) { id := some "unauthorized" } rfl
    "web" {} none

/-- **C6.** The claim says a connection-level failure is reported through
the callback-style error channel as a logged message.  The code instead
runs `JSON.parse(body)` *before* the `if (error)` check (dod.js lines
107-110, 170-173, 441-443), and on a transport error the request library
passes `body = undefined`, so the handler throws a `SyntaxError` and the
`Error: ...` log line is never reached.  Evaluation at the failing
input: the handler result is the thrown exception and is not an
`errorLog` for any message. -/
theorem c6_transport_error_throws_before_logging :
    listActionHandler (some "connect ECONNREFUSED 127.0.0.1:443")
      { statusCode := 0 } none = .thrown jsonParseErrorMsg ∧
    lookupAction "web-1" {} (some "connect ECONNREFUSED 127.0.0.1:443") none none =
      [Effect.httpGet (baseUrl ++ "/droplets"), Effect.thrownEx jsonParseErrorMsg] ∧
    ∀ msg : String,
      listActionHandler (some "connect ECONNREFUSED 127.0.0.1:443")
        { statusCode := 0 } none ≠ .errorLog msg :=
  ⟨rfl, rfl, fun _ hcontra => HandlerResult.noConfusion hcontra⟩

/-- **C7.** (Modelled from the spec — the create/delete implementations
are not under src/.)  A create request is treated as successful exactly
when the status is 202, a delete request exactly when the status is 204,
and any other status yields the fixed generic provider-side failure
message, regardless of response body content. -/
theorem c7_create_delete_status_classification
    (statusCode : Nat) (b b' : Option String) :
    createResultMsg statusCode b = createResultMsg statusCode b' ∧
    deleteResultMsg statusCode b = deleteResultMsg statusCode b' ∧
    (createResultMsg statusCode b = createSuccessMsg ↔ statusCode = 202) ∧
    (deleteResultMsg statusCode b = deleteSuccessMsg ↔ statusCode = 204) ∧
    (statusCode ≠ 202 → createResultMsg statusCode b = providerFailureMsg) ∧
    (statusCode ≠ 204 → deleteResultMsg statusCode b = providerFailureMsg) := by
  refine ⟨rfl, rfl, ?_, ?_, ?_, ?_⟩
  · by_cases h : statusCode = 202 <;>
      simp [createResultMsg, h, createSuccessMsg, providerFailureMsg]
  · by_cases h : statusCode = 204 <;>
      simp [deleteResultMsg, h, deleteSuccessMsg, providerFailureMsg]
  · intro h
    simp [createResultMsg, h]
  · intro h
    simp [deleteResultMsg, h]

/-- Witness for C7 at status 500 with two different bodies. -/
theorem c7_create_delete_status_classification_witness :
    createResultMsg 500 (some "detail A") = createResultMsg 500 (some "detail B") ∧
    createResultMsg 500 (some "detail A") = providerFailureMsg ∧
    deleteResultMsg 500 none = providerFailureMsg :=
  ⟨(c7_create_delete_status_classification 500 (some "detail A") (some "detail B")).1,
   (c7_create_delete_status_classification 500 (some "detail A") (some "detail B")).2.2.2.2.1
     (by decide),
   (c7_create_delete_status_classification 500 none none).2.2.2.2.2 (by decide)⟩

/-- **C8.** In the backups view every rendered row's cells are read from
fields of the collection object itself (`backups.id`, ...), not from the
iterated element: for every payload with `n` elements the output is `n`
identical rows, and when the collection object lacks the fields (as the
real API payload does) every cell is `undefined`. -/
theorem c8_backups_rows_read_collection_fields (bp : BackupsPayload)
    (bs : List Backup) :
    (printBackupsTable bp).rows =
      List.replicate bp.backups.length
        [bp.id, bp.created_at, bp.name, bp.distribution,
         bp.public, bp.regions, bp.size, bp.min_disk_size] ∧
    (printBackupsTable { backups := bs }).rows =
      List.replicate bs.length (List.replicate 8 Cell.undef) := by
  constructor
  · simp [printBackupsTable, List.map_const']
  · simp [printBackupsTable, List.map_const']

/-- **C9.** The authorize operation writes the provided token to the
config file unconditionally: the `fileWrite` effect is in the trace for
every outcome of the validation request, and the success message depends
only on the write's own outcome. -/
theorem c9_authorize_writes_token_unconditionally
    (home tok : String) (ro : RequestOutcome) (we : Option String) :
    Effect.fileWrite (home ++ "/.dodrc.yml") tok ∈ authorizeAction home tok ro we ∧
    (we = none →
      Effect.logMsg "A new token has been added." ∈ authorizeAction home tok ro we) := by
  cases ro <;> cases we <;> simp [authorizeAction]

/-- Witness for C9: the validation request fails with a transport error,
yet the token is written and the success message logged. -/
theorem c9_authorize_writes_token_unconditionally_witness :
    Effect.fileWrite ("/root" ++ "/.dodrc.yml") "tok123" ∈
      authorizeAction "/root" "tok123" (.transportError "connect ECONNREFUSED") none ∧
    Effect.logMsg "A new token has been added." ∈
      authorizeAction "/root" "tok123" (.transportError "connect ECONNREFUSED") none :=
  ⟨(c9_authorize_writes_token_unconditionally "/root" "tok123"
      (.transportError "connect ECONNREFUSED") none).1,
   (c9_authorize_writes_token_unconditionally "/root" "tok123"
      (.transportError "connect ECONNREFUSED") none).2 rfl⟩

/-- **C10.** In the second lookup variant a flagless invocation does not
return after printing the droplet info: the trace contains a second GET
to `/droplets/<id>/undefined`, whose parsed response yields a
`Total results` log line — two HTTP requests and extra output beyond the
single view. -/
theorem c10_flagless_lookup_issues_second_request
    (arg : String) (data : ListPayload) (droplets : List Droplet)
    (d : Droplet) (sp : SubPayload)
    (hid : data.id ≠ some "unauthorized")
    (hds : data.droplets = some droplets)
    (hres : resolveDroplet arg droplets = some d) :
    lookupAction arg {} none (some data) (some sp) =
      [Effect.httpGet (baseUrl ++ "/droplets"),
       Effect.printView (DropletView.info d),
       Effect.httpGet (baseUrl ++ "/droplets/" ++ toString d.id ++ "/undefined"),
       Effect.logMsg ("Droplet: " ++ d.name ++ ", Total results: " ++
         toString sp.totalResults)] := by
  have hbeq : (data.id == some "unauthorized") = false := beq_eq_false_iff_ne.mpr hid
  simp [lookupAction, hbeq, hds, hres, chosenOption, lookupSecondCallback,
    printDropletInfo, jsCoerceNum, jsCoerceStr, renderSwitch, append_slash_undefined]

/-- Witness for C10: one droplet named `web`, no flags; the trace has two
GETs, the second to `/droplets/100/undefined`, and a `Total results`
line (the 404-style body's first field has length 9). -/
theorem c10_flagless_lookup_issues_second_request_witness :
    lookupAction "web" {} none
      (some { droplets := some [sampleDroplet 100 "web" "active"] })
      (some (.other 9)) =
      [Effect.httpGet (baseUrl ++ "/droplets"),
       Effect.printView (DropletView.info (sampleDroplet 100 "web" "active")),
       Effect.httpGet (baseUrl ++ "/droplets/" ++
         toString (sampleDroplet 100 "web" "active").id ++ "/undefined"),
       Effect.logMsg ("Droplet: " ++ (sampleDroplet 100 "web" "active").name ++
         ", Total results: " ++ toString (SubPayload.other 9).totalResults)] :=
  c10_flagless_lookup_issues_second_request "web"
    { droplets := some [sampleDroplet 100 "web" "active"] }
    [sampleDroplet 100 "web" "active"] (sampleDroplet 100 "web" "active")
    (.other 9) (by simp) rfl (by decide)

end Dod
